import Mathlib

/-!
Verification of the static-configuration validation model of the
FreqRelay embedded image: memory regions and section assignments from
`software/FreqRelay_bsp/linker.h`, scheduler parameters from
`software/FreqRelay/FreeRTOS/FreeRTOSConfig.h`, and the validation /
boot-sequencing operations described in the design specification.
-/

namespace FreqRelay

/-- A named memory region: base address and span in bytes, from the
`*_REGION_BASE` / `*_REGION_SPAN` declarations of `linker.h`.
Addresses are 32-bit unsigned; we embed them as `Nat` and state the
no-wrap condition explicitly against `2 ^ 32`. -/
structure MemoryRegion where
  name : String
  baseAddress : Nat
  spanBytes : Nat
deriving DecidableEq, Repr

/-- Size of the 32-bit address space. -/
def addressSpaceSize : Nat := 2 ^ 32

/-- One-past-the-last address of a region: `end = base + span`. -/
def regionEnd (r : MemoryRegion) : Nat := r.baseAddress + r.spanBytes

/-- Modelled from the spec: the `MemoryRegion` invariant (`spanBytes > 0`
and `baseAddress + spanBytes` does not wrap the 32-bit address space);
the checking code is not in the repository sources, only the declared
constants are. -/
def regionWF (r : MemoryRegion) : Bool :=
  decide (0 < r.spanBytes) && decide (regionEnd r ≤ addressSpaceSize)

/-- Modelled from the spec: `overlaps(a, b)` is true iff
`!(a.end <= b.base || b.end <= a.base)` with `end = base + span`.
On `Nat` the sum cannot wrap, so no separate overflow branch is needed
here; the no-wrap condition is `regionWF`. -/
def overlaps (a b : MemoryRegion) : Bool :=
  !(decide (regionEnd a ≤ b.baseAddress) || decide (regionEnd b ≤ a.baseAddress))

/-- The five code/data sections of the configuration
(`ALT_*_DEVICE` declarations in `linker.h`). -/
inductive SectionKind where
  | EXCEPTIONS
  | RESET
  | RODATA
  | RWDATA
  | TEXT
deriving DecidableEq, Repr

/-- Modelled from the spec: the error taxonomy of the RegionMap
operations (`DuplicateNameError`, `OverlapError`, `NotFoundError`,
plus the unnamed failure when a section is assigned twice). -/
inductive RegionError where
  | DuplicateNameError (name : String)
  | OverlapError (newName existingName : String)
  | NotFoundError (name : String)
  | AlreadyAssignedError (s : SectionKind)
deriving DecidableEq, Repr

/-- Modelled from the spec: `addRegion(name, base, span)` fails with
`DuplicateNameError` if `name` already maps to different bounds, is a
no-op on an identical re-declaration, fails with `OverlapError` if
`[base, base+span)` intersects an existing, differently-named region's
range, and otherwise inserts. -/
def addRegion (m : List MemoryRegion) (name : String) (base span : Nat) :
    Except RegionError (List MemoryRegion) :=
  match m.find? (fun r => r.name == name) with
  | some r =>
      if r.baseAddress == base && r.spanBytes == span then
        Except.ok m
      else
        Except.error (RegionError.DuplicateNameError name)
  | none =>
      match m.find? (fun r => overlaps r ⟨name, base, span⟩) with
      | some r => Except.error (RegionError.OverlapError name r.name)
      | none => Except.ok (m ++ [⟨name, base, span⟩])

/-- Fold `addRegion` over a list of declarations, stopping at the first
error. -/
def addRegions (m : List MemoryRegion) :
    List (String × Nat × Nat) → Except RegionError (List MemoryRegion)
  | [] => Except.ok m
  | (n, b, s) :: rest =>
      match addRegion m n b s with
      | Except.ok m2 => addRegions m2 rest
      | Except.error e => Except.error e

/-- A section-to-region assignment (`ALT_<SECTION>_DEVICE <region>`). -/
structure SectionAssignment where
  sect : SectionKind
  regionName : String
deriving DecidableEq, Repr

/-- Modelled from the spec: `resolve(name)` fails with `NotFoundError`
when `name` is undeclared. -/
def resolve (m : List MemoryRegion) (n : String) : Except RegionError MemoryRegion :=
  match m.find? (fun r => r.name == n) with
  | some r => Except.ok r
  | none => Except.error (RegionError.NotFoundError n)

/-- Modelled from the spec: `assignSection(section, regionName)` fails
with `NotFoundError` if `regionName` is undeclared, fails if `section`
is already assigned, and otherwise records the assignment. -/
def assignSection (m : List MemoryRegion) (asgn : List SectionAssignment)
    (s : SectionKind) (rn : String) : Except RegionError (List SectionAssignment) :=
  match m.find? (fun r => r.name == rn) with
  | none => Except.error (RegionError.NotFoundError rn)
  | some _ =>
      if asgn.any (fun a => a.sect == s) then
        Except.error (RegionError.AlreadyAssignedError s)
      else
        Except.ok (asgn ++ [⟨s, rn⟩])

/-- Fold `assignSection` over a list of `(section, regionName)` pairs. -/
def assignAll (m : List MemoryRegion) (asgn : List SectionAssignment) :
    List (SectionKind × String) → Except RegionError (List SectionAssignment)
  | [] => Except.ok asgn
  | (s, rn) :: rest =>
      match assignSection m asgn s rn with
      | Except.ok a2 => assignAll m a2 rest
      | Except.error e => Except.error e

/-- Pairwise non-overlap of a list of regions. -/
def pairwiseDisjointB : List MemoryRegion → Bool
  | [] => true
  | r :: rest => rest.all (fun r2 => !overlaps r r2) && pairwiseDisjointB rest

/-! The five declared regions of `linker.h` (lines 68-77). -/

/-- `FLASH_CONTROLLER_REGION_BASE 0x1000020`, `..._SPAN 8388576`. -/
def FLASH_CONTROLLER : MemoryRegion := ⟨"FLASH_CONTROLLER", 0x1000020, 8388576⟩

/-- `ONCHIP_MEMORY_BEFORE_EXCEPTION_REGION_BASE 0x0`, `..._SPAN 32`. -/
def ONCHIP_MEMORY_BEFORE_EXCEPTION : MemoryRegion :=
  ⟨"ONCHIP_MEMORY_BEFORE_EXCEPTION", 0x0, 32⟩

/-- `ONCHIP_MEMORY_REGION_BASE 0x20`, `..._SPAN 204768`. -/
def ONCHIP_MEMORY : MemoryRegion := ⟨"ONCHIP_MEMORY", 0x20, 204768⟩

/-- `RESET_REGION_BASE 0x1000000`, `..._SPAN 32`. -/
def RESET_REGION : MemoryRegion := ⟨"RESET", 0x1000000, 32⟩

/-- `SDRAM_REGION_BASE 0x8000000`, `..._SPAN 134217728`. -/
def SDRAM : MemoryRegion := ⟨"SDRAM", 0x8000000, 134217728⟩

/-- The declared region map, in the declaration order of `linker.h`. -/
def declaredRegions : List MemoryRegion :=
  [FLASH_CONTROLLER, ONCHIP_MEMORY_BEFORE_EXCEPTION, ONCHIP_MEMORY, RESET_REGION, SDRAM]

/-- The `(name, base, span)` triples exactly as declared in `linker.h`. -/
def declaredRegionDecls : List (String × Nat × Nat) :=
  [("FLASH_CONTROLLER", 0x1000020, 8388576),
   ("ONCHIP_MEMORY_BEFORE_EXCEPTION", 0x0, 32),
   ("ONCHIP_MEMORY", 0x20, 204768),
   ("RESET", 0x1000000, 32),
   ("SDRAM", 0x8000000, 134217728)]

/-- The `(section, device)` pairs of `linker.h` lines 85-89. -/
def declaredAssignmentDecls : List (SectionKind × String) :=
  [(SectionKind.EXCEPTIONS, "ONCHIP_MEMORY"),
   (SectionKind.RESET, "FLASH_CONTROLLER"),
   (SectionKind.RODATA, "SDRAM"),
   (SectionKind.RWDATA, "SDRAM"),
   (SectionKind.TEXT, "ONCHIP_MEMORY")]

/-- The resulting assignment table. -/
def declaredAssignments : List SectionAssignment :=
  [⟨SectionKind.EXCEPTIONS, "ONCHIP_MEMORY"⟩,
   ⟨SectionKind.RESET, "FLASH_CONTROLLER"⟩,
   ⟨SectionKind.RODATA, "SDRAM"⟩,
   ⟨SectionKind.RWDATA, "SDRAM"⟩,
   ⟨SectionKind.TEXT, "ONCHIP_MEMORY"⟩]

/-! Scheduler configuration (`FreeRTOSConfig.h`). -/

/-- Stack-overflow checking level (`configCHECK_FOR_STACK_OVERFLOW`). -/
inductive StackOverflowCheckLevel where
  | NONE
  | METHOD1
  | METHOD2
deriving DecidableEq, Repr

/-- The optional API-inclusion capability flags (`INCLUDE_*` in
`FreeRTOSConfig.h`). -/
inductive ApiFlag where
  | DELETE
  | CLEANUP_RESOURCES
  | SUSPEND
  | DELAY_UNTIL
  | DELAY
  | STACK_HIGH_WATER_MARK
  | PRIORITY_SET
  | PRIORITY_GET
deriving DecidableEq, Repr

/-- The scheduler parameter record of the data model. -/
structure SchedulerParameters where
  preemptionEnabled : Bool
  tickRateHz : Nat
  maxPriorities : Nat
  minimalStackSizeBytes : Nat
  isrStackSizeBytes : Nat
  timerTaskPriority : Nat
  timerQueueLength : Nat
  timerTaskStackBytes : Nat
  totalHeapBytes : Nat
  stackOverflowCheckLevel : StackOverflowCheckLevel
  kernelInterruptPriority : Nat
  maxSyscallInterruptPriority : Nat
  coRoutinesEnabled : Bool
  maxCoRoutinePriorities : Nat
  apiInclusionFlags : List ApiFlag
deriving DecidableEq, Repr

/-- Finding severities. -/
inductive Severity where
  | ERROR
  | WARNING
deriving DecidableEq, Repr

/-- Finding codes of the error taxonomy. -/
inductive FindingCode where
  | TickRateZero
  | RangeError
  | InterruptPriorityOrderingError
  | InsufficientHeapWarning
  | DeleteWithoutCleanupWarning
  | UnresolvedAssignment
  | HeapBackingRegionTooSmall
deriving DecidableEq, Repr

/-- A validation finding; `message` and `offendingEntities` carry no
checkable content for the properties below and are omitted. -/
structure ValidationFinding where
  severity : Severity
  code : FindingCode
deriving DecidableEq, Repr

/-- Modelled from the spec: the heuristic heap lower bound, the sum of
`minimalStackSizeBytes` for one worst-case expected concurrent task set
plus `timerTaskStackBytes` plus `isrStackSizeBytes` (the task-set size
is unspecified; one minimal stack is used here). -/
def heapLowerBound (p : SchedulerParameters) : Nat :=
  p.minimalStackSizeBytes + p.timerTaskStackBytes + p.isrStackSizeBytes

/-- Modelled from the spec: `SchedulerConfig.validate()` accumulates all
applicable findings, never throws: tick-rate zero, timer-task priority
range, interrupt-priority ordering, heuristic heap warning, and the
DELETE-without-CLEANUP_RESOURCES warning. -/
def schedValidate (p : SchedulerParameters) : List ValidationFinding :=
  (if p.tickRateHz = 0 then
      [⟨Severity.ERROR, FindingCode.TickRateZero⟩] else []) ++
  (if p.maxPriorities ≤ p.timerTaskPriority then
      [⟨Severity.ERROR, FindingCode.RangeError⟩] else []) ++
  (if p.maxSyscallInterruptPriority < p.kernelInterruptPriority then
      [⟨Severity.ERROR, FindingCode.InterruptPriorityOrderingError⟩] else []) ++
  (if p.totalHeapBytes < heapLowerBound p then
      [⟨Severity.WARNING, FindingCode.InsufficientHeapWarning⟩] else []) ++
  (if ApiFlag.DELETE ∈ p.apiInclusionFlags ∧ ApiFlag.CLEANUP_RESOURCES ∉ p.apiInclusionFlags then
      [⟨Severity.WARNING, FindingCode.DeleteWithoutCleanupWarning⟩] else [])

/-- The declared scheduler configuration of `FreeRTOSConfig.h`:
`configUSE_PREEMPTION 1`, `configTICK_RATE_HZ 1000`,
`configMAX_PRIORITIES 12`, `configMINIMAL_STACK_SIZE 4096`,
`configISR_STACK_SIZE configMINIMAL_STACK_SIZE`,
`configTIMER_TASK_PRIORITY 3`, `configTIMER_QUEUE_LENGTH 10`,
`configTIMER_TASK_STACK_DEPTH 2048`, `configTOTAL_HEAP_SIZE 512000`,
`configCHECK_FOR_STACK_OVERFLOW 2`,
`configKERNEL_INTERRUPT_PRIORITY 0x01`,
`configMAX_SYSCALL_INTERRUPT_PRIORITY 0x03`,
`configUSE_CO_ROUTINES 0`, `configMAX_CO_ROUTINE_PRIORITIES 2`, and the
`INCLUDE_*` flags set to 1: vTaskDelete, vTaskCleanUpResources,
vTaskDelayUntil, vTaskDelay, uxTaskGetStackHighWaterMark. -/
def declaredScheduler : SchedulerParameters where
  preemptionEnabled := true
  tickRateHz := 1000
  maxPriorities := 12
  minimalStackSizeBytes := 4096
  isrStackSizeBytes := 4096
  timerTaskPriority := 3
  timerQueueLength := 10
  timerTaskStackBytes := 2048
  totalHeapBytes := 512000
  stackOverflowCheckLevel := StackOverflowCheckLevel.METHOD2
  kernelInterruptPriority := 0x01
  maxSyscallInterruptPriority := 0x03
  coRoutinesEnabled := false
  maxCoRoutinePriorities := 2
  apiInclusionFlags :=
    [ApiFlag.DELETE, ApiFlag.CLEANUP_RESOURCES, ApiFlag.DELAY_UNTIL,
     ApiFlag.DELAY, ApiFlag.STACK_HIGH_WATER_MARK]

/-! ConsistencyValidator pieces used by the claims. -/

/-- Modelled from the spec: the step-1 internal check that every section
assignment resolves to a declared region; one ERROR finding per
unresolved assignment. -/
def unresolvedAssignmentFindings (m : List MemoryRegion)
    (asgn : List SectionAssignment) : List ValidationFinding :=
  (asgn.filter (fun a => (m.find? (fun r => r.name == a.regionName)).isNone)).map
    (fun _ => ⟨Severity.ERROR, FindingCode.UnresolvedAssignment⟩)

/-- Modelled from the spec: the region backing runtime stack/heap
allocation is the region assigned to the `RWDATA` section. -/
def heapBackingRegion (m : List MemoryRegion)
    (asgn : List SectionAssignment) : Option MemoryRegion :=
  match asgn.find? (fun a => a.sect == SectionKind.RWDATA) with
  | some a => m.find? (fun r => r.name == a.regionName)
  | none => none

/-- Modelled from the spec: the step-4 cross-check, an ERROR iff the
backing region's `spanBytes` is below `totalHeapBytes`. -/
def heapCrossCheck (m : List MemoryRegion) (asgn : List SectionAssignment)
    (p : SchedulerParameters) : List ValidationFinding :=
  match heapBackingRegion m asgn with
  | some r =>
      if r.spanBytes < p.totalHeapBytes then
        [⟨Severity.ERROR, FindingCode.HeapBackingRegionTooSmall⟩]
      else []
  | none => []

/-! BootSequencer (`ALT_LOAD_EXPLICITLY_CONTROLLED` in `linker.h`). -/

/-- The five states of the boot state machine. -/
inductive BootState where
  | RESET
  | AUTO_LOAD
  | EXPLICIT_LOAD
  | ENTRY
  | HALT
deriving DecidableEq, Repr

/-- The load-control mode declared in configuration. -/
inductive LoadMode where
  | automatic
  | explicitlyControlled
deriving DecidableEq, Repr

/-- `linker.h` defines `ALT_LOAD_EXPLICITLY_CONTROLLED`, so the declared
load-control mode is explicit. -/
def declaredLoadMode : LoadMode := LoadMode.explicitlyControlled

/-- Modelled from the spec: the BootSequencer transition function.
From `RESET`, an ERROR-severe prior report goes to `HALT`; otherwise the
load-control mode selects `AUTO_LOAD` or `EXPLICIT_LOAD`, both of which
go to `ENTRY`; `ENTRY` and `HALT` are terminal. -/
def bootStep (mode : LoadMode) (errorSevere : Bool) : BootState → BootState
  | BootState.RESET =>
      if errorSevere then BootState.HALT
      else match mode with
        | LoadMode.automatic => BootState.AUTO_LOAD
        | LoadMode.explicitlyControlled => BootState.EXPLICIT_LOAD
  | BootState.AUTO_LOAD => BootState.ENTRY
  | BootState.EXPLICIT_LOAD => BootState.ENTRY
  | BootState.ENTRY => BootState.ENTRY
  | BootState.HALT => BootState.HALT

/-- Modelled from the spec: automatic copy-down of sections is performed
exactly in the `AUTO_LOAD` state. -/
def copyDownInState (s : BootState) : Bool := s == BootState.AUTO_LOAD

/-- The traversal from `RESET`: three states reach a terminal state on
every path of the machine. -/
def bootTrace (mode : LoadMode) (errorSevere : Bool) : List BootState :=
  [BootState.RESET,
   bootStep mode errorSevere BootState.RESET,
   bootStep mode errorSevere (bootStep mode errorSevere BootState.RESET)]

/-! Helper lemmas. -/

/-- In a region map whose names are pairwise distinct, looking a name up
finds exactly the member region bearing that name. -/
theorem find_name_of_nodup (m : List MemoryRegion) (name : String) (base span : Nat)
    (hn : (m.map MemoryRegion.name).Nodup)
    (hm : (⟨name, base, span⟩ : MemoryRegion) ∈ m) :
    m.find? (fun r => r.name == name) = some ⟨name, base, span⟩ := by
  induction m with
  | nil => simp at hm
  | cons r rest ih =>
    simp only [List.map_cons, List.nodup_cons] at hn
    rcases List.mem_cons.mp hm with h | h
    · subst h
      exact List.find?_cons_of_pos _ (by simp)
    · have hname : name ∈ rest.map MemoryRegion.name :=
        List.mem_map_of_mem MemoryRegion.name h
      have hr : r.name ≠ name := fun he => hn.1 (he ▸ hname)
      rw [List.find?_cons_of_neg _ (by simp [hr])]
      exact ih hn.2 h

/-! Claim theorems. -/

/-- C1: the declared configuration has `kernelInterruptPriority = 0x01`
and `maxSyscallInterruptPriority = 0x03` and its validation emits no
ERROR `InterruptPriorityOrderingError`; in general, `validate()` emits
that finding iff `kernelInterruptPriority > maxSyscallInterruptPriority`. -/
theorem c1_interrupt_priority_ordering :
    declaredScheduler.kernelInterruptPriority = 0x01
    ∧ declaredScheduler.maxSyscallInterruptPriority = 0x03
    ∧ ValidationFinding.mk Severity.ERROR FindingCode.InterruptPriorityOrderingError
        ∉ schedValidate declaredScheduler
    ∧ ∀ p : SchedulerParameters,
        ValidationFinding.mk Severity.ERROR FindingCode.InterruptPriorityOrderingError
            ∈ schedValidate p
          ↔ p.maxSyscallInterruptPriority < p.kernelInterruptPriority := by
  refine ⟨rfl, rfl, by decide, fun p => ?_⟩
  unfold schedValidate
  split_ifs <;> simp_all

/-- C2: every declared region satisfies the `MemoryRegion` invariant
(positive span, no 32-bit wrap), the five declared ranges are pairwise
disjoint, adding all five via `addRegion` succeeds with no `OverlapError`,
and the touching pair is really touching: `RESET` ends exactly where
`FLASH_CONTROLLER` begins. -/
theorem c2_declared_regions_wellformed_disjoint :
    declaredRegions.all regionWF = true
    ∧ pairwiseDisjointB declaredRegions = true
    ∧ addRegions [] declaredRegionDecls = Except.ok declaredRegions
    ∧ regionEnd RESET_REGION = FLASH_CONTROLLER.baseAddress :=
  ⟨by decide, by decide, rfl, by decide⟩

/-- C3 counterexample: the claim states the first region's end is
`0x31FE0`, but `regionEnd` of the region with base `0x20` and span
`204768` is `0x20 + 204768 = 0x32000`; `0x31FE0 = 204768` is the span,
not the end. -/
theorem c3_end_value_refuted :
    regionEnd ONCHIP_MEMORY = 0x32000 ∧ regionEnd ONCHIP_MEMORY ≠ 0x31FE0 := by
  decide

/-- C3 (amended): for the regions with base `0x20`, span `204768` and
base `0x1000020`, span `8388576`, `overlaps` returns false, because the
first region's end, `0x32000`, is below the second's base. -/
theorem c3_no_overlap_amended :
    overlaps ONCHIP_MEMORY FLASH_CONTROLLER = false
    ∧ regionEnd ONCHIP_MEMORY = 0x32000
    ∧ regionEnd ONCHIP_MEMORY < FLASH_CONTROLLER.baseAddress := by
  decide

/-- C4: all five declared section assignments succeed via
`assignSection`, every assigned region name resolves, the step-1
unresolved-assignment check yields no finding, and each section has
exactly one assignment. -/
theorem c4_section_assignments_resolve :
    assignAll declaredRegions [] declaredAssignmentDecls = Except.ok declaredAssignments
    ∧ declaredAssignments.all
        (fun a => ((resolve declaredRegions a.regionName).toOption).isSome) = true
    ∧ unresolvedAssignmentFindings declaredRegions declaredAssignments = []
    ∧ ∀ s : SectionKind,
        (declaredAssignments.filter (fun a => a.sect == s)).length = 1 :=
  ⟨rfl, by decide, by decide, fun s => by cases s <;> decide⟩

/-- C5: the declared configuration has `timerTaskPriority = 3` strictly
below `maxPriorities = 12` and its validation emits no ERROR
`RangeError`; in general, `validate()` emits that finding iff
`timerTaskPriority >= maxPriorities`. -/
theorem c5_timer_priority_range :
    declaredScheduler.timerTaskPriority = 3
    ∧ declaredScheduler.maxPriorities = 12
    ∧ ValidationFinding.mk Severity.ERROR FindingCode.RangeError
        ∉ schedValidate declaredScheduler
    ∧ ∀ p : SchedulerParameters,
        ValidationFinding.mk Severity.ERROR FindingCode.RangeError ∈ schedValidate p
          ↔ p.maxPriorities ≤ p.timerTaskPriority := by
  refine ⟨rfl, rfl, by decide, fun p => ?_⟩
  unfold schedValidate
  split_ifs <;> simp_all

/-- C6: the region backing runtime stack/heap allocation is the RWDATA
region `SDRAM` with span `134217728 ≥ totalHeapBytes = 512000`, so the
cross-check emits nothing on the declared configuration; in general,
when a backing region exists, the cross-check emits its ERROR iff the
backing region's span is below `totalHeapBytes`. -/
theorem c6_heap_backing_region :
    heapBackingRegion declaredRegions declaredAssignments = some SDRAM
    ∧ SDRAM.spanBytes = 134217728
    ∧ declaredScheduler.totalHeapBytes = 512000
    ∧ heapCrossCheck declaredRegions declaredAssignments declaredScheduler = []
    ∧ ∀ (m : List MemoryRegion) (asgn : List SectionAssignment)
        (p : SchedulerParameters) (r : MemoryRegion),
        heapBackingRegion m asgn = some r →
        (ValidationFinding.mk Severity.ERROR FindingCode.HeapBackingRegionTooSmall
            ∈ heapCrossCheck m asgn p
          ↔ r.spanBytes < p.totalHeapBytes) := by
  refine ⟨by decide, rfl, rfl, by decide, fun m asgn p r h => ?_⟩
  unfold heapCrossCheck
  rw [h]
  by_cases hlt : r.spanBytes < p.totalHeapBytes <;> simp [hlt]

/-- C6 witness: the general cross-check characterization applied to the
declared configuration, whose backing region is `SDRAM`. -/
theorem c6_heap_backing_region_witness :
    ValidationFinding.mk Severity.ERROR FindingCode.HeapBackingRegionTooSmall
        ∈ heapCrossCheck declaredRegions declaredAssignments declaredScheduler
      ↔ SDRAM.spanBytes < declaredScheduler.totalHeapBytes :=
  c6_heap_backing_region.2.2.2.2 declaredRegions declaredAssignments
    declaredScheduler SDRAM (by decide)

/-- C7: on any name-distinct region map containing `(name, base, span)`,
re-declaring the identical triple succeeds and leaves the map unchanged;
and a `DuplicateNameError` arises only when the map holds a region of
that name with different bounds. -/
theorem c7_addRegion_idempotent :
    (∀ (m : List MemoryRegion) (name : String) (base span : Nat),
        (m.map MemoryRegion.name).Nodup →
        (⟨name, base, span⟩ : MemoryRegion) ∈ m →
        addRegion m name base span = Except.ok m)
    ∧ ∀ (m : List MemoryRegion) (n e : String) (b s : Nat),
        addRegion m n b s = Except.error (RegionError.DuplicateNameError e) →
        e = n ∧ ∃ r, r ∈ m ∧ r.name = n
          ∧ ¬(r.baseAddress = b ∧ r.spanBytes = s) := by
  constructor
  · intro m name base span hn hm
    unfold addRegion
    rw [find_name_of_nodup m name base span hn hm]
    simp
  · intro m n e b s h
    unfold addRegion at h
    split at h
    next r hf =>
      split at h
      · exact absurd h (by simp)
      next hb =>
        simp only [Except.error.injEq, RegionError.DuplicateNameError.injEq] at h
        refine ⟨h.symm, r, List.mem_of_find?_eq_some hf, ?_, ?_⟩
        · have := List.find?_some hf
          simpa using this
        · intro hc
          apply hb
          simp [hc.1, hc.2]
    next hf =>
      split at h
      · exact absurd h (by simp)
      · exact absurd h (by simp)

/-- C7 witness: identical re-declaration of `ONCHIP_MEMORY` on a
singleton map is a no-op, and re-declaring it with different bounds
produces a `DuplicateNameError` that indeed points at a same-named,
differently-bounded resident region. -/
theorem c7_addRegion_idempotent_witness :
    addRegion [ONCHIP_MEMORY] "ONCHIP_MEMORY" 0x20 204768 = Except.ok [ONCHIP_MEMORY]
    ∧ ("ONCHIP_MEMORY" = "ONCHIP_MEMORY"
        ∧ ∃ r, r ∈ [ONCHIP_MEMORY] ∧ r.name = "ONCHIP_MEMORY"
            ∧ ¬(r.baseAddress = 0 ∧ r.spanBytes = 1)) :=
  ⟨c7_addRegion_idempotent.1 [ONCHIP_MEMORY] "ONCHIP_MEMORY" 0x20 204768
      (by decide) (by decide),
   c7_addRegion_idempotent.2 [ONCHIP_MEMORY] "ONCHIP_MEMORY" "ONCHIP_MEMORY" 0 1 rfl⟩

/-- C8: the declared configuration includes both `DELETE` and
`CLEANUP_RESOURCES`, so validation emits no deleted-tasks-resources
WARNING; in general, `validate()` emits that WARNING iff `DELETE` is
included and `CLEANUP_RESOURCES` is not. -/
theorem c8_delete_without_cleanup :
    ApiFlag.DELETE ∈ declaredScheduler.apiInclusionFlags
    ∧ ApiFlag.CLEANUP_RESOURCES ∈ declaredScheduler.apiInclusionFlags
    ∧ ValidationFinding.mk Severity.WARNING FindingCode.DeleteWithoutCleanupWarning
        ∉ schedValidate declaredScheduler
    ∧ ∀ p : SchedulerParameters,
        ValidationFinding.mk Severity.WARNING FindingCode.DeleteWithoutCleanupWarning
            ∈ schedValidate p
          ↔ (ApiFlag.DELETE ∈ p.apiInclusionFlags
              ∧ ApiFlag.CLEANUP_RESOURCES ∉ p.apiInclusionFlags) := by
  refine ⟨by decide, by decide, by decide, fun p => ?_⟩
  unfold schedValidate
  split_ifs <;> simp_all

/-- C9: with the declared explicit load-control mode and a
non-ERROR-severe prior report, the boot traversal is
`RESET → EXPLICIT_LOAD → ENTRY` and no state on that path performs the
automatic copy-down. -/
theorem c9_explicit_load_traversal :
    declaredLoadMode = LoadMode.explicitlyControlled
    ∧ bootTrace declaredLoadMode false
        = [BootState.RESET, BootState.EXPLICIT_LOAD, BootState.ENTRY]
    ∧ (bootTrace declaredLoadMode false).all (fun s => !copyDownInState s) = true := by
  decide

/-- C10: the declared assignment is accepted in full by `assignSection`
yet is not injective: `EXCEPTIONS` and `TEXT` share `ONCHIP_MEMORY`, and
`RODATA` and `RWDATA` share `SDRAM`. -/
theorem c10_assignment_not_injective :
    assignAll declaredRegions [] declaredAssignmentDecls = Except.ok declaredAssignments
    ∧ SectionAssignment.mk SectionKind.EXCEPTIONS "ONCHIP_MEMORY" ∈ declaredAssignments
    ∧ SectionAssignment.mk SectionKind.TEXT "ONCHIP_MEMORY" ∈ declaredAssignments
    ∧ SectionAssignment.mk SectionKind.RODATA "SDRAM" ∈ declaredAssignments
    ∧ SectionAssignment.mk SectionKind.RWDATA "SDRAM" ∈ declaredAssignments
    ∧ SectionKind.EXCEPTIONS ≠ SectionKind.TEXT
    ∧ SectionKind.RODATA ≠ SectionKind.RWDATA :=
  ⟨rfl, by decide, by decide, by decide, by decide, by decide, by decide⟩

end FreqRelay
